import Mathlib

/-
  Verification development for the hydra-bot repository.

  Shallow embedding of the parameter-optimization subsystem
  (src/hydra-bot/optimization/parameter_optimizer.py) and the engine
  orchestration loop (src/hydra-bot/main.py), together with the trade
  accounting of src/hydra-bot/analytics/performance_monitor.py.

  Python floats are embedded as rationals (ℚ); dictionary lookups
  `params.get(key, default)` are embedded as `Option ℚ` fields read with
  `Option.getD default`.  `np.random.random()` draws are embedded as
  explicit oracle arguments, in the order the Python code draws them.
-/

namespace HydraBot

/-- `OptimizationTarget` (parameter_optimizer.py lines 30-37): the five
scoring weights with their dataclass defaults. -/
structure OptimizationTarget where
  boomroach_value_weight : ℚ := 30/100
  profit_weight : ℚ := 25/100
  risk_weight : ℚ := 20/100
  execution_weight : ℚ := 15/100
  community_weight : ℚ := 10/100
deriving DecidableEq

/-- `ParameterSpace` (parameter_optimizer.py lines 39-79): per-parameter
(lower, upper) bounds, with the dataclass defaults.  Integer-kind ranges are
embedded with their endpoints as rationals. -/
structure ParameterSpace where
  sniper_min_liquidity : ℚ × ℚ := (5, 50)
  sniper_max_buy : ℚ × ℚ := (1/2, 5)
  sniper_reaction_time : ℚ × ℚ := (1000, 5000)
  sniper_confidence_threshold : ℚ × ℚ := (6/10, 95/100)
  momentum_threshold : ℚ × ℚ := (5/100, 30/100)
  volume_spike_threshold : ℚ × ℚ := (3/2, 5)
  rsi_oversold : ℚ × ℚ := (20, 40)
  rsi_overbought : ℚ × ℚ := (60, 80)
  reentry_confidence_threshold : ℚ × ℚ := (1/2, 90/100)
  ai_min_confidence : ℚ × ℚ := (60/100, 90/100)
  sentiment_weight : ℚ × ℚ := (1/10, 1/2)
  technical_weight : ℚ × ℚ := (1/2, 9/10)
  social_signals_weight : ℚ × ℚ := (1/10, 4/10)
  max_position_size : ℚ × ℚ := (1, 10)
  stop_loss_percentage : ℚ × ℚ := (5/100, 25/100)
  take_profit_percentage : ℚ × ℚ := (15/100, 50/100)
  max_daily_loss : ℚ × ℚ := (1/100, 8/100)
  max_open_positions : ℚ × ℚ := (3, 15)
  commission_rate : ℚ × ℚ := (10/1000, 25/1000)
  treasury_allocation : ℚ × ℚ := (60/100, 80/100)
  burn_allocation : ℚ × ℚ := (15/100, 30/100)
  buyback_allocation : ℚ × ℚ := (5/100, 25/100)
  burn_threshold : ℚ × ℚ := (500, 2000)
  priority_fee : ℚ × ℚ := (1/1000, 5/100)
  slippage_tolerance : ℚ × ℚ := (5/1000, 3/100)
  retry_attempts : ℚ × ℚ := (1, 5)
  timeout_seconds : ℚ × ℚ := (5, 30)
deriving DecidableEq

/-- A parameter dictionary.  The Python code passes `Dict[str, Any]` around
and reads entries with `params.get(key, default)`; we embed the dictionary as
a record of optional values covering every key the modelled code reads or
writes, `none` standing for an absent key. -/
structure ParamSet where
  sniper_min_liquidity : Option ℚ := none
  sniper_max_buy : Option ℚ := none
  sniper_reaction_time : Option ℚ := none
  ai_min_confidence : Option ℚ := none
  max_position_size : Option ℚ := none
  stop_loss_percentage : Option ℚ := none
  take_profit_percentage : Option ℚ := none
  max_daily_loss : Option ℚ := none
  commission_rate : Option ℚ := none
  treasury_allocation : Option ℚ := none
  burn_allocation : Option ℚ := none
  buyback_allocation : Option ℚ := none
  burn_threshold : Option ℚ := none
  priority_fee : Option ℚ := none
  slippage_tolerance : Option ℚ := none
deriving DecidableEq

/-- A present value lies inside a (lower, upper) bound pair; an absent key
has no value to violate the bound. -/
def inRangeB (b : ℚ × ℚ) (v : Option ℚ) : Bool :=
  match v with
  | none => true
  | some x => decide (b.1 ≤ x) && decide (x ≤ b.2)

/-- Every value present in the ParamSet lies within its descriptor's bounds
from `ParameterSpace` (the data-model invariant of spec §3). -/
def ParamSet.inBounds (space : ParameterSpace) (p : ParamSet) : Bool :=
  inRangeB space.sniper_min_liquidity p.sniper_min_liquidity &&
  inRangeB space.sniper_max_buy p.sniper_max_buy &&
  inRangeB space.sniper_reaction_time p.sniper_reaction_time &&
  inRangeB space.ai_min_confidence p.ai_min_confidence &&
  inRangeB space.max_position_size p.max_position_size &&
  inRangeB space.stop_loss_percentage p.stop_loss_percentage &&
  inRangeB space.take_profit_percentage p.take_profit_percentage &&
  inRangeB space.max_daily_loss p.max_daily_loss &&
  inRangeB space.commission_rate p.commission_rate &&
  inRangeB space.treasury_allocation p.treasury_allocation &&
  inRangeB space.burn_allocation p.burn_allocation &&
  inRangeB space.buyback_allocation p.buyback_allocation &&
  inRangeB space.burn_threshold p.burn_threshold &&
  inRangeB space.priority_fee p.priority_fee &&
  inRangeB space.slippage_tolerance p.slippage_tolerance

/-- `ParameterOptimizer.calculate_profit_score` (lines 336-349). -/
def calculate_profit_score (p : ParamSet) : ℚ :=
  let base_profit : ℚ := 100
  let confidence_bonus := (p.ai_min_confidence.getD (7/10) - 5/10) * 50
  let position_size_factor := min (p.max_position_size.getD 5 / 10) 1 * 30
  let take_profit_factor := p.take_profit_percentage.getD (25/100) * 100
  let profit_score := base_profit + confidence_bonus + position_size_factor + take_profit_factor
  min 100 (max 0 profit_score)

/-- `ParameterOptimizer.calculate_risk_score` (lines 351-371). -/
def calculate_risk_score (p : ParamSet) : ℚ :=
  let score : ℚ := 100
  let max_daily_loss := p.max_daily_loss.getD (5/100)
  let score := if max_daily_loss > 5/100 then score - (max_daily_loss - 5/100) * 1000 else score
  let stop_loss := p.stop_loss_percentage.getD (15/100)
  let score := if 10/100 ≤ stop_loss ∧ stop_loss ≤ 20/100 then score + 10 else score
  let max_position := p.max_position_size.getD 5
  let score := if max_position ≤ 5 then score + 10 else score
  min 100 (max 0 score)

/-- `ParameterOptimizer.calculate_execution_score` (lines 373-388). -/
def calculate_execution_score (p : ParamSet) : ℚ :=
  let reaction_time := p.sniper_reaction_time.getD 2000 / 1000
  let speed_score := max 0 (100 - (reaction_time - 1) * 50)
  let priority_fee := p.priority_fee.getD (1/100)
  let fee_score := min 100 (priority_fee / (5/100) * 50 + 50)
  let slippage := p.slippage_tolerance.getD (1/100)
  let slippage_score := max 0 (100 - slippage * 1000)
  (speed_score + fee_score + slippage_score) / 3

/-- `ParameterOptimizer.calculate_community_impact` (lines 390-405). -/
def calculate_community_impact (p : ParamSet) : ℚ :=
  let burn_threshold := p.burn_threshold.getD 1000
  let frequency_score := max 0 (100 - (burn_threshold - 500) / 10)
  let buyback_allocation := p.buyback_allocation.getD (10/100)
  let buyback_score := buyback_allocation / (25/100) * 100
  let commission_rate := p.commission_rate.getD (15/1000)
  let transparency_score : ℚ :=
    if 10/1000 ≤ commission_rate ∧ commission_rate ≤ 20/1000 then 100 else 50
  (frequency_score + buyback_score + transparency_score) / 3

/-- `ParameterOptimizer.calculate_boomroach_impact` (lines 306-334).  The
method calls `self.calculate_risk_adjusted_returns(params)`, which is not
implemented anywhere under src/ (the file ends with a comment that the
remaining utility methods "would be implemented here"); per spec §4.5 it is a
pure component score, so it is passed in as an explicit function `riskAdj`. -/
def calculate_boomroach_impact (riskAdj : ParamSet → ℚ) (p : ParamSet) : ℚ :=
  let score : ℚ := 0
  let commission_rate := p.commission_rate.getD (15/1000)
  let commission_score := min 100 (commission_rate / (25/1000) * 100)
  let score := score + commission_score * (25/100)
  let treasury_allocation := p.treasury_allocation.getD (70/100)
  let treasury_score := treasury_allocation / (80/100) * 100
  let score := score + treasury_score * (20/100)
  let burn_allocation := p.burn_allocation.getD (20/100)
  let burn_score := burn_allocation / (30/100) * 100
  let score := score + burn_score * (25/100)
  let trading_frequency := 1 / max (p.sniper_reaction_time.getD 2000 / 1000) (1/10)
  let frequency_score := min 100 (trading_frequency * 20)
  let score := score + frequency_score * (15/100)
  let risk_adj_score := riskAdj p
  let score := score + risk_adj_score * (15/100)
  min 100 score

/-- `ParameterOptimizer.evaluate_parameter_set` (lines 285-304): the Scoring
Function, a weighted sum of the five component scores. -/
def evaluate_parameter_set (riskAdj : ParamSet → ℚ) (target : OptimizationTarget)
    (p : ParamSet) : ℚ :=
  let profit_score := calculate_profit_score p
  let risk_score := calculate_risk_score p
  let execution_score := calculate_execution_score p
  let boomroach_score := calculate_boomroach_impact riskAdj p
  let community_score := calculate_community_impact p
  profit_score * target.profit_weight +
    risk_score * target.risk_weight +
    execution_score * target.execution_weight +
    boomroach_score * target.boomroach_value_weight +
    community_score * target.community_weight

/-- `ParameterOptimizer.check_parameter_bounds` (lines 590-593), exactly as
implemented in src/: the body is `return True` unconditionally (its docstring
says it checks that parameters are within valid bounds, and the body carries
the comment "Implementation would validate bounds"). -/
def check_parameter_bounds (_params : ParamSet) : Bool :=
  true

/-- One entry of `ParameterOptimizer.optimization_history`
(parameter_optimizer.py lines 501-506). -/
structure OptimizationHistoryEntry where
  timestamp : ℚ
  parameters : ParamSet
  score : ℚ
  method : String
deriving DecidableEq

/-- The mutable fields of `ParameterOptimizer` touched by the modelled
methods (lines 89-100): the target weights, the best parameters, the current
score and the optimization history. -/
structure OptimizerState where
  target : OptimizationTarget := {}
  best_parameters : ParamSet := {}
  current_score : ℚ := 0
  optimization_history : List OptimizationHistoryEntry := []
deriving DecidableEq

/-- `ParameterOptimizer.validate_parameters` (lines 451-484): the Validation
Gate.  Reads `self.current_score` and `self.target` from the state. -/
def validate_parameters (riskAdj : ParamSet → ℚ) (s : OptimizerState)
    (params : ParamSet) : Bool :=
  if !check_parameter_bounds params then false
  else if params.max_daily_loss.getD (5/100) > 8/100 then false
  else
    let total_allocation :=
      params.treasury_allocation.getD (70/100) +
      params.burn_allocation.getD (20/100) +
      params.buyback_allocation.getD (10/100)
    if |total_allocation - 1| > 1/100 then false
    else
      let simulated_score := evaluate_parameter_set riskAdj s.target params
      let improvement_threshold : ℚ := 2/100
      if simulated_score ≤ s.current_score * (1 + improvement_threshold) then false
      else true

/-- `ParameterOptimizer.apply_parameters` (lines 486-511): rollout of an
accepted candidate.  Updates best parameters, recomputes the current score
with the Scoring Function and appends an OptimizationHistoryEntry. -/
def apply_parameters (riskAdj : ParamSet → ℚ) (now : ℚ) (params : ParamSet)
    (s : OptimizerState) : OptimizerState :=
  let new_score := evaluate_parameter_set riskAdj s.target params
  { s with
    best_parameters := params
    current_score := new_score
    optimization_history := s.optimization_history ++
      [⟨now, params, new_score, "multi_algorithm"⟩] }

/-- The call `self.evaluate_parameter_set(params)` as a state transformer on
the optimizer: the method reads `self.target` and returns the score; the
translation records that it writes no field of the optimizer. -/
def evaluate_parameter_set_call (riskAdj : ParamSet → ℚ) (params : ParamSet)
    (s : OptimizerState) : ℚ × OptimizerState :=
  (evaluate_parameter_set riskAdj s.target params, s)

/-- A candidate whose `sniper_min_liquidity` value 1000 is far above the
declared upper bound 50, while its allocation keys are absent (so the gate
computes the all-default allocation sum 0.70 + 0.20 + 0.10 = 1). -/
def out_of_bounds_candidate : ParamSet :=
  { sniper_min_liquidity := some 1000 }

/-- A candidate whose `commission_rate` value 0.030 exceeds the declared
bound pair (0.010, 0.025) from `ParameterSpace.commission_rate`. -/
def commission_out_of_bounds_candidate : ParamSet :=
  { commission_rate := some (30/1000) }

/-- Modelled from the spec: `ParameterOptimizer.select_best_optimization_result`
is called by `optimize_parameters` (parameter_optimizer.py line 159) but is
not implemented anywhere under src/.  Spec §4.6: the optimizer discards the
strategies that failed or timed out, selects the surviving candidate with the
strictly highest score (ties broken by preferring the earlier method in the
fixed ordering, which is the order of the gathered results), and if all four
strategies failed the cycle aborts with no candidate. -/
def select_best_optimization_result (riskAdj : ParamSet → ℚ)
    (target : OptimizationTarget) (results : List (Except String ParamSet)) :
    Except String ParamSet :=
  let survivors := results.filterMap fun r =>
    match r with
    | Except.ok p => some p
    | Except.error _ => none
  match survivors with
  | [] => Except.error "all optimization strategies failed"
  | c :: cs =>
    Except.ok (cs.foldl (fun best cand =>
      if evaluate_parameter_set riskAdj target cand >
          evaluate_parameter_set riskAdj target best then cand else best) c)

/-- Outcome of one pass of the `start_optimization` while-loop
(parameter_optimizer.py lines 118-143): a candidate was applied, or the gate
rejected it (either way the loop then sleeps
`optimization_interval * 3600 = 21600` seconds), or an exception was caught
by the `except` clause and the loop sleeps 1800 seconds before retrying. -/
inductive CycleOutcome where
  | applied (sleep_seconds : ℚ)
  | rejected (sleep_seconds : ℚ)
  | errored (retry_backoff_seconds : ℚ)
deriving DecidableEq

/-- One optimization cycle of `start_optimization` (lines 118-143), given the
outcomes of the four gathered search strategies: select the best result
(aborting propagates to the except clause as a 1800-second backoff), run the
Validation Gate, and on acceptance apply the parameters. -/
def start_optimization_cycle (riskAdj : ParamSet → ℚ) (now : ℚ)
    (results : List (Except String ParamSet)) (s : OptimizerState) :
    OptimizerState × CycleOutcome :=
  match select_best_optimization_result riskAdj s.target results with
  | Except.error _ => (s, CycleOutcome.errored 1800)
  | Except.ok new_params =>
    if validate_parameters riskAdj s new_params then
      (apply_parameters riskAdj now new_params s, CycleOutcome.applied 21600)
    else (s, CycleOutcome.rejected 21600)

/-- The Optuna trial draws consumed by `sample_parameters`
(parameter_optimizer.py lines 552-576), in drawing order;
`trial.suggest_float(name, lo, hi)` guarantees the draw lies in [lo, hi]. -/
structure TrialDraws where
  sniper_min_liquidity : ℚ
  sniper_max_buy : ℚ
  sniper_reaction_time : ℚ
  max_position_size : ℚ
  stop_loss_percentage : ℚ
  take_profit_percentage : ℚ
  commission_rate : ℚ
  treasury_allocation : ℚ
  burn_allocation : ℚ
  burn_threshold : ℚ
deriving DecidableEq

/-- The Optuna guarantee that every draw lies within the suggested range of
its parameter in the search space. -/
def trial_draws_in_space (space : ParameterSpace) (t : TrialDraws) : Prop :=
  (space.sniper_min_liquidity.1 ≤ t.sniper_min_liquidity ∧
    t.sniper_min_liquidity ≤ space.sniper_min_liquidity.2) ∧
  (space.sniper_max_buy.1 ≤ t.sniper_max_buy ∧
    t.sniper_max_buy ≤ space.sniper_max_buy.2) ∧
  (space.sniper_reaction_time.1 ≤ t.sniper_reaction_time ∧
    t.sniper_reaction_time ≤ space.sniper_reaction_time.2) ∧
  (space.max_position_size.1 ≤ t.max_position_size ∧
    t.max_position_size ≤ space.max_position_size.2) ∧
  (space.stop_loss_percentage.1 ≤ t.stop_loss_percentage ∧
    t.stop_loss_percentage ≤ space.stop_loss_percentage.2) ∧
  (space.take_profit_percentage.1 ≤ t.take_profit_percentage ∧
    t.take_profit_percentage ≤ space.take_profit_percentage.2) ∧
  (space.commission_rate.1 ≤ t.commission_rate ∧
    t.commission_rate ≤ space.commission_rate.2) ∧
  (space.treasury_allocation.1 ≤ t.treasury_allocation ∧
    t.treasury_allocation ≤ space.treasury_allocation.2) ∧
  (space.burn_allocation.1 ≤ t.burn_allocation ∧
    t.burn_allocation ≤ space.burn_allocation.2) ∧
  (space.burn_threshold.1 ≤ t.burn_threshold ∧
    t.burn_threshold ≤ space.burn_threshold.2)

/-- `ParameterOptimizer.sample_parameters` (lines 552-576): builds the
candidate dictionary from the trial draws; `buyback_allocation` is not drawn
but derived as `1.0 - (treasury_allocation + burn_allocation)`. -/
def sample_parameters (t : TrialDraws) : ParamSet :=
  { sniper_min_liquidity := some t.sniper_min_liquidity
    sniper_max_buy := some t.sniper_max_buy
    sniper_reaction_time := some t.sniper_reaction_time
    max_position_size := some t.max_position_size
    stop_loss_percentage := some t.stop_loss_percentage
    take_profit_percentage := some t.take_profit_percentage
    commission_rate := some t.commission_rate
    treasury_allocation := some t.treasury_allocation
    burn_allocation := some t.burn_allocation
    burn_threshold := some t.burn_threshold
    buyback_allocation := some (1 - (t.treasury_allocation + t.burn_allocation)) }

/-- The trial with treasury allocation at its upper bound 0.80 and burn
allocation at its upper bound 0.30 (all other draws at their lower bounds),
for which the derived buyback allocation is 1 - 1.10 = -0.10. -/
def extreme_trial : TrialDraws :=
  ⟨5, 1/2, 1000, 1, 5/100, 15/100, 1/100, 80/100, 30/100, 500⟩

/-- `BaseEngine.performance_metrics` (main.py lines 78-84). -/
structure EnginePerformanceMetrics where
  total_trades : ℕ := 0
  successful_trades : ℕ := 0
  total_profit : ℚ := 0
  win_rate : ℚ := 0
  avg_execution_time : ℚ := 0
deriving DecidableEq

/-- `BaseEngine.update_performance` (main.py lines 101-110), called once per
settled trade with the trade's realized `profit_loss` (the TradeExecution
dataclass defaults an unknown PnL to 0.0). -/
def update_performance (m : EnginePerformanceMetrics) (profit_loss : ℚ) :
    EnginePerformanceMetrics :=
  let total_trades := m.total_trades + 1
  let successful_trades :=
    if profit_loss > 0 then m.successful_trades + 1 else m.successful_trades
  { m with
    total_trades := total_trades
    successful_trades := successful_trades
    total_profit := m.total_profit + profit_loss
    win_rate := (successful_trades : ℚ) / (total_trades : ℚ) }

/-- The successful-trade count of
`PerformanceMonitor.calculate_performance_metrics`
(performance_monitor.py line 177): the `pnl` column is nullable and Python's
`t.pnl and t.pnl > 0` is falsy for a missing or zero pnl. -/
def monitor_successful_trades (pnls : List (Option ℚ)) : ℕ :=
  (pnls.filter fun t =>
    match t with
    | none => false
    | some v => if v = 0 then false else decide (v > 0)).length

/-- The win rate of `calculate_performance_metrics` (line 178):
successes over total, 0 when there are no trades. -/
def monitor_win_rate (pnls : List (Option ℚ)) : ℚ :=
  if pnls.length > 0 then
    (monitor_successful_trades pnls : ℚ) / (pnls.length : ℚ)
  else 0

/-- `TradingSignal` (main.py lines 48-59). -/
structure TradingSignalE where
  engine : String
  type : String
  symbol : String
  confidence : ℚ
  price : ℚ
  reasoning : String
  timestamp : ℚ
  expected_return : ℚ
  strength : String
  timeframe : String
deriving DecidableEq

/-- The Sniper engine's cooldown state: `last_signal_time`, initialised to 0
by `BaseEngine.__init__` (main.py line 85). -/
structure SniperState where
  last_signal_time : ℚ := 0
deriving DecidableEq

/-- `SniperEngine.generate_signal` (main.py lines 124-153).  `now` is the
tick's wall-clock time, `price` and `volume` the market-data entries, and
`r1`, `r2`, `r3` the successive `np.random.random()` draws (`r2` and `r3`
are drawn only when a signal is constructed). -/
def sniper_generate_signal (now price volume r1 r2 r3 : ℚ) (s : SniperState) :
    Option TradingSignalE × SniperState :=
  if now - s.last_signal_time < 30 then (none, s)
  else if volume > 500000 ∧ r1 > 7/10 then
    let confidence := 75/100 + r2 * (20/100)
    (some
      { engine := "Sniper Engine", type := "BUY", symbol := "BOOMROACH"
        confidence := confidence, price := price
        reasoning := "High volume breakout detected with strong momentum"
        timestamp := now, expected_return := 125/10 + r3 * 15
        strength := "high", timeframe := "5m" },
      { last_signal_time := now })
  else (none, s)

/-- The Re-entry engine's state: its rolling `price_history`
(main.py line 166); it never reads or writes `last_signal_time`. -/
structure ReentryState where
  price_history : List ℚ := []
deriving DecidableEq

/-- `ReentryEngine.generate_signal` (main.py lines 168-204): append the
tick's price, trim the history to the last 20 entries, and when at least 10
prices are known emit a signal whenever the mean of the last 5 prices exceeds
1.02 times the mean of the last 10 and the draw `r1` exceeds 0.8.  The method
performs no cooldown check. -/
def reentry_generate_signal (now price r1 r2 r3 : ℚ) (s : ReentryState) :
    Option TradingSignalE × ReentryState :=
  let history := s.price_history ++ [price]
  let history := if history.length > 20 then history.drop (history.length - 20) else history
  if history.length < 10 then (none, { price_history := history })
  else
    let recent_prices := history.drop (history.length - 10)
    let sma_short := (recent_prices.drop 5).sum / 5
    let sma_long := recent_prices.sum / 10
    if sma_short > sma_long * (102/100) ∧ r1 > 8/10 then
      (some
        { engine := "Re-entry Engine", type := "BUY", symbol := "BOOMROACH"
          confidence := 70/100 + r2 * (25/100), price := price
          reasoning := "Momentum breakout with volume confirmation detected"
          timestamp := now, expected_return := 85/10 + r3 * 12
          strength := "medium", timeframe := "15m" },
        { price_history := history })
    else (none, { price_history := history })

/-- One poll of the Re-entry engine: tick time, market price and the random
draws. -/
structure ReentryTick where
  now : ℚ
  price : ℚ
  r1 : ℚ
  r2 : ℚ
  r3 : ℚ
deriving DecidableEq

/-- Run the Re-entry engine over a sequence of polls, collecting the
per-tick results. -/
def reentry_run : List ReentryTick → ReentryState → List (Option TradingSignalE)
  | [], _ => []
  | t :: ts, s =>
    let step := reentry_generate_signal t.now t.price t.r1 t.r2 t.r3 s
    step.1 :: reentry_run ts step.2

/-- Ten warm-up polls at price 1 (no emission: flat momentum), then two
would-emit polls at price 2, 10 seconds apart, with random draws 0.9. -/
def reentry_failing_trace : List ReentryTick :=
  [⟨1, 1, 0, 0, 0⟩, ⟨2, 1, 0, 0, 0⟩, ⟨3, 1, 0, 0, 0⟩, ⟨4, 1, 0, 0, 0⟩,
   ⟨5, 1, 0, 0, 0⟩, ⟨6, 1, 0, 0, 0⟩, ⟨7, 1, 0, 0, 0⟩, ⟨8, 1, 0, 0, 0⟩,
   ⟨9, 1, 0, 0, 0⟩, ⟨10, 1, 0, 0, 0⟩,
   ⟨100, 2, 9/10, 0, 0⟩, ⟨110, 2, 9/10, 0, 0⟩]

/-- `EngineStatus` (main.py lines 38-42). -/
inductive EngineStatus where
  | stopped
  | running
  | error
  | maintenance
deriving DecidableEq

/-- One engine as a tick of the orchestrator sees it: its lifecycle status
and the outcome of its `generate_signal` call on this tick (a raised fault,
or an optional signal). -/
structure TickEngine where
  status : EngineStatus
  gen : Except String (Option TradingSignalE)

/-- The per-tick engine loop of `HydraBotOrchestrator.main_loop` (main.py
lines 500-511): iterate over the registry in insertion order; for every
RUNNING engine invoke `generate_signal` and forward a produced signal; an
exception raised by an engine propagates out of the for-loop, so the engines
after it are not reached this tick.  Returns the indices of the engines
polled, the signals forwarded, and the escaped fault if any. -/
def tick_engine_loop : List TickEngine → ℕ → List ℕ × List TradingSignalE × Option String
  | [], _ => ([], [], none)
  | e :: rest, i =>
    match e.status with
    | EngineStatus.running =>
      match e.gen with
      | Except.error msg => ([i], [], some msg)
      | Except.ok sig =>
        let r := tick_engine_loop rest (i + 1)
        (i :: r.1, sig.toList ++ r.2.1, r.2.2)
    | _ => tick_engine_loop rest (i + 1)

/-- The result of one iteration of `main_loop` (main.py lines 494-518). -/
structure IterationResult where
  polled : List ℕ
  forwarded : List TradingSignalE
  caught : Option String
  sleep_seconds : ℚ
  continues : Bool

/-- One iteration of `HydraBotOrchestrator.main_loop` (main.py lines
494-518): the whole tick body runs inside one try/except, so a fault escaping
the engine loop is caught there and logged, the iteration sleeps 5 seconds
instead of 1, and the while-loop continues with the next tick. -/
def main_loop_iteration (engines : List TickEngine) : IterationResult :=
  let r := tick_engine_loop engines 0
  match r.2.2 with
  | some msg => ⟨r.1, r.2.1, some msg, 5, true⟩
  | none => ⟨r.1, r.2.1, none, 1, true⟩

/-- The indices (offset by `i`) of the RUNNING engines in a registry
segment. -/
def running_indices : List TickEngine → ℕ → List ℕ
  | [], _ => []
  | e :: rest, i =>
    if e.status = EngineStatus.running then i :: running_indices rest (i + 1)
    else running_indices rest (i + 1)

/-- An engine whose `generate_signal` raises this tick. -/
def faulting_engine : TickEngine :=
  ⟨EngineStatus.running, Except.error "boom"⟩

/-- A signal emitted by a healthy engine. -/
def healthy_signal : TradingSignalE :=
  ⟨"Re-entry Engine", "BUY", "BOOMROACH", 8/10, 1, "momentum", 100, 10,
    "medium", "15m"⟩

/-- A RUNNING engine whose `generate_signal` returns a signal this tick. -/
def healthy_engine : TickEngine :=
  ⟨EngineStatus.running, Except.ok (some healthy_signal)⟩

/-- Clamping with `min 100 (max 0 x)` always lands in [0, 100]. -/
theorem min_max_clamp_bounds (x : ℚ) : 0 ≤ min 100 (max 0 x) ∧ min 100 (max 0 x) ≤ 100 :=
  ⟨le_min (by norm_num) (le_max_left 0 x), min_le_left 100 (max 0 x)⟩

/-- Reading an in-range optional value with an in-range default yields an
in-range effective value. -/
theorem inRangeB_getD {lo hi d : ℚ} {v : Option ℚ} (h : inRangeB (lo, hi) v = true)
    (hd1 : lo ≤ d) (hd2 : d ≤ hi) : lo ≤ v.getD d ∧ v.getD d ≤ hi := by
  cases v with
  | none => exact ⟨hd1, hd2⟩
  | some x =>
    simp only [inRangeB, Bool.and_eq_true, decide_eq_true_eq] at h
    exact h

/-- The profit component always lands in [0, 100] (it is clamped). -/
theorem calculate_profit_score_bounds (p : ParamSet) :
    0 ≤ calculate_profit_score p ∧ calculate_profit_score p ≤ 100 := by
  simp only [calculate_profit_score]
  exact min_max_clamp_bounds _

/-- The risk component always lands in [0, 100] (it is clamped). -/
theorem calculate_risk_score_bounds (p : ParamSet) :
    0 ≤ calculate_risk_score p ∧ calculate_risk_score p ≤ 100 := by
  simp only [calculate_risk_score]
  exact min_max_clamp_bounds _

/-- The execution component lands in [0, 100] whenever the effective reaction
time, priority fee and slippage tolerance are in their descriptor ranges. -/
theorem calculate_execution_score_bounds (p : ParamSet)
    (hrt : 1000 ≤ p.sniper_reaction_time.getD 2000)
    (hpf : 0 ≤ p.priority_fee.getD (1/100))
    (hsl : 0 ≤ p.slippage_tolerance.getD (1/100)) :
    0 ≤ calculate_execution_score p ∧ calculate_execution_score p ≤ 100 := by
  simp only [calculate_execution_score]
  have hs0 : (0:ℚ) ≤ max 0 (100 - (p.sniper_reaction_time.getD 2000 / 1000 - 1) * 50) :=
    le_max_left _ _
  have hs1 : max 0 (100 - (p.sniper_reaction_time.getD 2000 / 1000 - 1) * 50) ≤ 100 :=
    max_le (by norm_num) (by linarith)
  have hf0 : (0:ℚ) ≤ min 100 (p.priority_fee.getD (1/100) / (5/100) * 50 + 50) :=
    le_min (by norm_num) (by linarith)
  have hf1 : min 100 (p.priority_fee.getD (1/100) / (5/100) * 50 + 50) ≤ 100 :=
    min_le_left _ _
  have hl0 : (0:ℚ) ≤ max 0 (100 - p.slippage_tolerance.getD (1/100) * 1000) :=
    le_max_left _ _
  have hl1 : max 0 (100 - p.slippage_tolerance.getD (1/100) * 1000) ≤ 100 :=
    max_le (by norm_num) (by linarith)
  constructor <;> linarith

/-- The value-accrual component lands in [0, 100] whenever the effective
commission rate, treasury allocation and burn allocation are nonnegative and
the risk-adjusted component is nonnegative. -/
theorem calculate_boomroach_impact_bounds (riskAdj : ParamSet → ℚ) (p : ParamSet)
    (hcr : 0 ≤ p.commission_rate.getD (15/1000))
    (hta : 0 ≤ p.treasury_allocation.getD (70/100))
    (hba : 0 ≤ p.burn_allocation.getD (20/100))
    (hra : 0 ≤ riskAdj p) :
    0 ≤ calculate_boomroach_impact riskAdj p ∧ calculate_boomroach_impact riskAdj p ≤ 100 := by
  simp only [calculate_boomroach_impact]
  have h1 : (0:ℚ) ≤ min 100 (p.commission_rate.getD (15/1000) / (25/1000) * 100) :=
    le_min (by norm_num) (by linarith)
  have h4p : (0:ℚ) < max (p.sniper_reaction_time.getD 2000 / 1000) (1/10) :=
    lt_of_lt_of_le (by norm_num) (le_max_right _ _)
  have h4 : (0:ℚ) ≤ min 100 (1 / max (p.sniper_reaction_time.getD 2000 / 1000) (1/10) * 20) :=
    le_min (by norm_num)
      (mul_nonneg (one_div_pos.mpr h4p).le (by norm_num))
  have h2 : (0:ℚ) ≤ p.treasury_allocation.getD (70/100) / (80/100) * 100 := by linarith
  have h3 : (0:ℚ) ≤ p.burn_allocation.getD (20/100) / (30/100) * 100 := by linarith
  exact ⟨le_min (by norm_num) (by linarith), min_le_left _ _⟩

/-- The community component lands in [0, 100] whenever the effective burn
threshold and buyback allocation are in their descriptor ranges. -/
theorem calculate_community_impact_bounds (p : ParamSet)
    (hbt : 500 ≤ p.burn_threshold.getD 1000)
    (hbb0 : 0 ≤ p.buyback_allocation.getD (10/100))
    (hbb1 : p.buyback_allocation.getD (10/100) ≤ 25/100) :
    0 ≤ calculate_community_impact p ∧ calculate_community_impact p ≤ 100 := by
  simp only [calculate_community_impact]
  have hf0 : (0:ℚ) ≤ max 0 (100 - (p.burn_threshold.getD 1000 - 500) / 10) :=
    le_max_left _ _
  have hf1 : max 0 (100 - (p.burn_threshold.getD 1000 - 500) / 10) ≤ 100 :=
    max_le (by norm_num) (by linarith)
  have hb0 : (0:ℚ) ≤ p.buyback_allocation.getD (10/100) / (25/100) * 100 := by linarith
  have hb1 : p.buyback_allocation.getD (10/100) / (25/100) * 100 ≤ 100 := by linarith
  constructor <;> · split_ifs <;> linarith

/-- The effective values the Scoring Function reads from an in-bounds
ParamSet (defaults applied where a key is absent) lie within the declared
descriptor bounds; the defaults themselves are in bounds. -/
theorem inBounds_effective_values (p : ParamSet) (hb : p.inBounds {} = true) :
    (1000 ≤ p.sniper_reaction_time.getD 2000 ∧ p.sniper_reaction_time.getD 2000 ≤ 5000) ∧
    (1/1000 ≤ p.priority_fee.getD (1/100) ∧ p.priority_fee.getD (1/100) ≤ 5/100) ∧
    (5/1000 ≤ p.slippage_tolerance.getD (1/100) ∧ p.slippage_tolerance.getD (1/100) ≤ 3/100) ∧
    (10/1000 ≤ p.commission_rate.getD (15/1000) ∧ p.commission_rate.getD (15/1000) ≤ 25/1000) ∧
    (60/100 ≤ p.treasury_allocation.getD (70/100) ∧ p.treasury_allocation.getD (70/100) ≤ 80/100) ∧
    (15/100 ≤ p.burn_allocation.getD (20/100) ∧ p.burn_allocation.getD (20/100) ≤ 30/100) ∧
    (5/100 ≤ p.buyback_allocation.getD (10/100) ∧ p.buyback_allocation.getD (10/100) ≤ 25/100) ∧
    (500 ≤ p.burn_threshold.getD 1000 ∧ p.burn_threshold.getD 1000 ≤ 2000) := by
  simp only [ParamSet.inBounds, Bool.and_eq_true] at hb
  obtain ⟨⟨⟨⟨⟨⟨⟨⟨⟨⟨⟨⟨⟨⟨h1, h2⟩, h3⟩, h4⟩, h5⟩, h6⟩, h7⟩, h8⟩, h9⟩, h10⟩,
    h11⟩, h12⟩, h13⟩, h14⟩, h15⟩ := hb
  exact ⟨inRangeB_getD h3 (by norm_num) (by norm_num),
    inRangeB_getD h14 (by norm_num) (by norm_num),
    inRangeB_getD h15 (by norm_num) (by norm_num),
    inRangeB_getD h9 (by norm_num) (by norm_num),
    inRangeB_getD h10 (by norm_num) (by norm_num),
    inRangeB_getD h11 (by norm_num) (by norm_num),
    inRangeB_getD h12 (by norm_num) (by norm_num),
    inRangeB_getD h13 (by norm_num) (by norm_num)⟩

/-- C5: for every ParamSet within its descriptor bounds (and with the
risk-adjusted component, modelled from the spec as a score in [0, 100]), the
Scoring Function with the default target weights returns a value in [0, 100],
and it is the weighted sum of the five component scores with default weights
0.25 / 0.20 / 0.15 / 0.30 / 0.10 (profit / risk / execution / value-accrual /
community), which sum to 1. -/
theorem claim_C5_score_in_range_weighted_sum (riskAdj : ParamSet → ℚ) (p : ParamSet)
    (hb : p.inBounds {} = true)
    (hr : 0 ≤ riskAdj p ∧ riskAdj p ≤ 100) :
    (({} : OptimizationTarget).profit_weight = 25/100 ∧
      ({} : OptimizationTarget).risk_weight = 20/100 ∧
      ({} : OptimizationTarget).execution_weight = 15/100 ∧
      ({} : OptimizationTarget).boomroach_value_weight = 30/100 ∧
      ({} : OptimizationTarget).community_weight = 10/100 ∧
      (25:ℚ)/100 + 20/100 + 15/100 + 30/100 + 10/100 = 1) ∧
    evaluate_parameter_set riskAdj {} p =
      calculate_profit_score p * (25/100) + calculate_risk_score p * (20/100) +
      calculate_execution_score p * (15/100) +
      calculate_boomroach_impact riskAdj p * (30/100) +
      calculate_community_impact p * (10/100) ∧
    0 ≤ evaluate_parameter_set riskAdj {} p ∧
    evaluate_parameter_set riskAdj {} p ≤ 100 := by
  obtain ⟨hrt, hpf, hsl, hcr, hta, hban, hbb, hbt⟩ := inBounds_effective_values p hb
  have hprofit := calculate_profit_score_bounds p
  have hrisk := calculate_risk_score_bounds p
  have hexec := calculate_execution_score_bounds p hrt.1
    (by linarith [hpf.1]) (by linarith [hsl.1])
  have hboom := calculate_boomroach_impact_bounds riskAdj p
    (by linarith [hcr.1]) (by linarith [hta.1]) (by linarith [hban.1]) hr.1
  have hcomm := calculate_community_impact_bounds p hbt.1 (by linarith [hbb.1]) hbb.2
  have heq : evaluate_parameter_set riskAdj {} p =
      calculate_profit_score p * (25/100) + calculate_risk_score p * (20/100) +
      calculate_execution_score p * (15/100) +
      calculate_boomroach_impact riskAdj p * (30/100) +
      calculate_community_impact p * (10/100) := rfl
  refine ⟨⟨rfl, rfl, rfl, rfl, rfl, by norm_num⟩, heq, ?_, ?_⟩ <;> rw [heq]
  · linarith [hprofit.1, hrisk.1, hexec.1, hboom.1, hcomm.1]
  · linarith [hprofit.2, hrisk.2, hexec.2, hboom.2, hcomm.2]

/-- Closed instance of C5: the all-default ParamSet is within bounds, and
with a constant risk-adjusted component of 50 its score lies in [0, 100]. -/
theorem claim_C5_score_in_range_weighted_sum_witness :
    0 ≤ evaluate_parameter_set (fun _ => 50) {} {} ∧
      evaluate_parameter_set (fun _ => 50) {} {} ≤ 100 :=
  ⟨(claim_C5_score_in_range_weighted_sum (fun _ => 50) {}
      (by norm_num [ParamSet.inBounds, inRangeB]) (by norm_num)).2.2.1,
    (claim_C5_score_in_range_weighted_sum (fun _ => 50) {}
      (by norm_num [ParamSet.inBounds, inRangeB]) (by norm_num)).2.2.2⟩

/-- C1: the Validation Gate accepts a candidate only if its score under the
Scoring Function exceeds the current score by more than the 2 percent
relative-improvement threshold; after an accepted rollout the recorded score
is at least 1.02 times the score current before the gate ran, and an
OptimizationHistoryEntry with that score is appended.  With the all-default
target weights, a candidate scoring 50.5 against a current score of 50.0 is
rejected and a candidate scoring 51.5 is accepted. -/
theorem claim_C1_validation_gate_improvement
    (riskAdj : ParamSet → ℚ) (s : OptimizerState) (p : ParamSet) (now : ℚ)
    (h : validate_parameters riskAdj s p = true) :
    evaluate_parameter_set riskAdj s.target p > s.current_score * (1 + 2/100) ∧
    (apply_parameters riskAdj now p s).current_score ≥ s.current_score * (102/100) ∧
    (apply_parameters riskAdj now p s).optimization_history =
      s.optimization_history ++
        [⟨now, p, evaluate_parameter_set riskAdj s.target p, "multi_algorithm"⟩] ∧
    evaluate_parameter_set (fun _ => (-15620)/27) ({} : OptimizationTarget) {} = 101/2 ∧
    validate_parameters (fun _ => (-15620)/27) { current_score := 50 } {} = false ∧
    evaluate_parameter_set (fun _ => (-15020)/27) ({} : OptimizationTarget) {} = 103/2 ∧
    validate_parameters (fun _ => (-15020)/27) { current_score := 50 } {} = true := by
  simp only [validate_parameters] at h
  split_ifs at h with h1 h2 h3 h4
  rw [not_le] at h4
  refine ⟨by linarith, ?_, rfl, ?_, ?_, ?_, ?_⟩
  · show evaluate_parameter_set riskAdj s.target p ≥ s.current_score * (102/100)
    linarith
  · norm_num [evaluate_parameter_set, calculate_profit_score, calculate_risk_score,
      calculate_execution_score, calculate_community_impact, calculate_boomroach_impact]
  · norm_num [validate_parameters, evaluate_parameter_set, calculate_profit_score,
      calculate_risk_score, calculate_execution_score, calculate_community_impact,
      calculate_boomroach_impact, check_parameter_bounds]
  · norm_num [evaluate_parameter_set, calculate_profit_score, calculate_risk_score,
      calculate_execution_score, calculate_community_impact, calculate_boomroach_impact]
  · norm_num [validate_parameters, evaluate_parameter_set, calculate_profit_score,
      calculate_risk_score, calculate_execution_score, calculate_community_impact,
      calculate_boomroach_impact, check_parameter_bounds]

/-- Closed instance of C1: the 3-percent-improvement scenario candidate (the
empty ParamSet scored with the engineered risk-adjusted component, score
51.5 against current score 50.0) passes the gate, and afterwards the
recorded score 51.5 is at least 1.02 times 50.0. -/
theorem claim_C1_validation_gate_improvement_witness :
    (apply_parameters (fun _ => (-15020)/27) 0 {} { current_score := 50 }).current_score ≥
      ({ current_score := 50 } : OptimizerState).current_score * (102/100) :=
  (claim_C1_validation_gate_improvement (fun _ => (-15020)/27)
    { current_score := 50 } {} 0 (by norm_num [validate_parameters,
      evaluate_parameter_set, calculate_profit_score, calculate_risk_score,
      calculate_execution_score, calculate_community_impact,
      calculate_boomroach_impact, check_parameter_bounds])).2.1

/-- C2, counterexample to the claim as stated: an accepted ParameterSet does
not have all its values within their descriptor bounds.
`check_parameter_bounds` is a stub returning True unconditionally, so the
Validation Gate accepts `out_of_bounds_candidate`, whose
`sniper_min_liquidity` value 1000 violates its declared bounds (5, 50). -/
theorem claim_C2_gate_accepts_out_of_bounds_values :
    validate_parameters (fun _ => 50) { current_score := 0 } out_of_bounds_candidate = true ∧
    out_of_bounds_candidate.inBounds {} = false ∧
    check_parameter_bounds out_of_bounds_candidate = true := by
  norm_num [validate_parameters, evaluate_parameter_set, calculate_profit_score,
    calculate_risk_score, calculate_execution_score, calculate_community_impact,
    calculate_boomroach_impact, check_parameter_bounds, out_of_bounds_candidate,
    ParamSet.inBounds, inRangeB]

/-- C2, amended: what the Validation Gate really guarantees for every
accepted candidate is the allocation-sum invariant and the daily-loss
ceiling: the effective treasury, burn and buyback allocations (defaults
0.70 / 0.20 / 0.10 for absent keys) sum to 1 within the 0.01 tolerance, and
the effective max_daily_loss is at most 0.08.  Descriptor bounds are not
enforced: `check_parameter_bounds` answers true on every candidate (its body
is a stub), so an accepted set may contain out-of-bounds values. -/
theorem claim_C2_accepted_allocation_invariant
    (riskAdj : ParamSet → ℚ) (s : OptimizerState) (p : ParamSet)
    (h : validate_parameters riskAdj s p = true) :
    |p.treasury_allocation.getD (70/100) + p.burn_allocation.getD (20/100) +
      p.buyback_allocation.getD (10/100) - 1| ≤ 1/100 ∧
    p.max_daily_loss.getD (5/100) ≤ 8/100 ∧
    check_parameter_bounds p = true := by
  simp only [validate_parameters] at h
  split_ifs at h with h1 h2 h3 h4
  exact ⟨not_lt.mp h3, not_lt.mp h2, rfl⟩

/-- Closed instance of the amended C2: the gate accepts
`out_of_bounds_candidate` (current score 0, constant risk-adjusted component
50), and its effective allocations 0.70 + 0.20 + 0.10 satisfy the sum
invariant. -/
theorem claim_C2_accepted_allocation_invariant_witness :
    |out_of_bounds_candidate.treasury_allocation.getD (70/100) +
      out_of_bounds_candidate.burn_allocation.getD (20/100) +
      out_of_bounds_candidate.buyback_allocation.getD (10/100) - 1| ≤ 1/100 :=
  (claim_C2_accepted_allocation_invariant (fun _ => 50) { current_score := 0 }
    out_of_bounds_candidate
    (by norm_num [validate_parameters, evaluate_parameter_set,
      calculate_profit_score, calculate_risk_score, calculate_execution_score,
      calculate_community_impact, calculate_boomroach_impact,
      check_parameter_bounds, out_of_bounds_candidate])).1

/-- C3: the claim that a candidate with `commission_rate = 0.030` is rejected
with an OutOfBounds reason naming `commission_rate` fails on the code as
written: `check_parameter_bounds` returns True unconditionally, so the
Validation Gate accepts the candidate even though 0.030 lies outside the
declared bound pair (0.010, 0.025). -/
theorem claim_C3_commission_rate_not_rejected :
    check_parameter_bounds commission_out_of_bounds_candidate = true ∧
    validate_parameters (fun _ => 50) { current_score := 0 }
      commission_out_of_bounds_candidate = true ∧
    inRangeB ({} : ParameterSpace).commission_rate
      commission_out_of_bounds_candidate.commission_rate = false := by
  norm_num [validate_parameters, evaluate_parameter_set, calculate_profit_score,
    calculate_risk_score, calculate_execution_score, calculate_community_impact,
    calculate_boomroach_impact, check_parameter_bounds,
    commission_out_of_bounds_candidate, inRangeB]

/-- C4: the Scoring Function is deterministic and side-effect-free: the call
`evaluate_parameter_set(params)` leaves the optimizer state unchanged, a
second call on the resulting state returns the same score, and two optimizer
states with the same target weights score every ParamSet identically. -/
theorem claim_C4_scoring_deterministic_and_pure
    (riskAdj : ParamSet → ℚ) (p : ParamSet) (s s' : OptimizerState)
    (hs : s.target = s'.target) :
    (evaluate_parameter_set_call riskAdj p s).2 = s ∧
    (evaluate_parameter_set_call riskAdj p
        ((evaluate_parameter_set_call riskAdj p s).2)).1 =
      (evaluate_parameter_set_call riskAdj p s).1 ∧
    (evaluate_parameter_set_call riskAdj p s).1 =
      (evaluate_parameter_set_call riskAdj p s').1 := by
  refine ⟨rfl, rfl, ?_⟩
  simp only [evaluate_parameter_set_call, hs]

/-- Closed instance of C4 at an optimizer state with current score 7 and a
second state with the same target weights but a different score. -/
theorem claim_C4_scoring_deterministic_and_pure_witness :
    (evaluate_parameter_set_call (fun _ => 50) {} { current_score := 7 }).2 =
      { current_score := 7 } :=
  (claim_C4_scoring_deterministic_and_pure (fun _ => 50) {}
    { current_score := 7 } { current_score := 9 } rfl).1

/-- C6: each settled trade reported to `BaseEngine.update_performance`
increments `total_trades` by exactly one; a trade with unknown or zero PnL
(the TradeExecution default 0.0) leaves `successful_trades` unchanged; after
every update `win_rate` equals `successful_trades / total_trades`.  On the
monitor side, a trade with a missing or zero `pnl` column counts toward the
total but not toward the successful count. -/
theorem claim_C6_trade_accounting (m : EnginePerformanceMetrics) (profit_loss : ℚ)
    (pnls : List (Option ℚ)) :
    (update_performance m profit_loss).total_trades = m.total_trades + 1 ∧
    (profit_loss = 0 →
      (update_performance m profit_loss).successful_trades = m.successful_trades) ∧
    (update_performance m profit_loss).win_rate =
      ((update_performance m profit_loss).successful_trades : ℚ) /
        ((update_performance m profit_loss).total_trades : ℚ) ∧
    monitor_successful_trades (none :: pnls) = monitor_successful_trades pnls ∧
    monitor_successful_trades (some 0 :: pnls) = monitor_successful_trades pnls ∧
    (none :: pnls).length = pnls.length + 1 ∧
    (some 0 :: pnls).length = pnls.length + 1 := by
  refine ⟨rfl, ?_, rfl, ?_, ?_, rfl, rfl⟩
  · intro h
    simp [update_performance, h]
  · simp [monitor_successful_trades]
  · simp [monitor_successful_trades]

/-- Closed instance of C6: from fresh metrics, one trade with zero PnL gives
one total trade and no successful trade. -/
theorem claim_C6_trade_accounting_witness :
    (update_performance {} 0).total_trades = 1 ∧
    (update_performance {} 0).successful_trades = 0 := by
  have h := claim_C6_trade_accounting {} 0 []
  exact ⟨h.1, (h.2.1 rfl).trans rfl⟩

/-- The Sniper engine's cooldown gate (main.py line 126): inside the
30-second window `generate_signal` returns None before any signal object is
constructed, whatever the market data and random draws. -/
theorem sniper_cooldown_suppresses (now price volume r1 r2 r3 : ℚ)
    (s : SniperState) (h : now - s.last_signal_time < 30) :
    sniper_generate_signal now price volume r1 r2 r3 s = (none, s) := by
  simp [sniper_generate_signal, h]

/-- When the Sniper engine does emit, the signal's timestamp is the tick
time, the cooldown state is set to it, and at least 30 seconds have passed
since the previously recorded signal time. -/
theorem sniper_emission_spacing (now price volume r1 r2 r3 : ℚ)
    (s : SniperState) (sig : TradingSignalE)
    (h : (sniper_generate_signal now price volume r1 r2 r3 s).1 = some sig) :
    sig.timestamp = now ∧
    (sniper_generate_signal now price volume r1 r2 r3 s).2.last_signal_time = now ∧
    30 ≤ now - s.last_signal_time := by
  by_cases h1 : now - s.last_signal_time < 30
  · simp [sniper_generate_signal, h1] at h
  · by_cases h2 : volume > 500000 ∧ r1 > 7/10
    · simp only [sniper_generate_signal, if_neg h1, if_pos h2] at h
      obtain rfl := (Option.some.inj h).symm
      exact ⟨rfl, by simp [sniper_generate_signal, if_neg h1, if_pos h2],
        not_lt.mp h1⟩
    · simp [sniper_generate_signal, h1, h2] at h

/-- C7: the claim that every engine suppresses a second would-emit decision
inside its cooldown window fails on the code: `ReentryEngine.generate_signal`
(cited by the claim) performs no cooldown check, and on the concrete trace
`reentry_failing_trace` it constructs and returns two consecutive non-None
signals with timestamps 100 and 110, only 10 seconds apart (closer than any
of the cooldown intervals appearing in main.py, 30 s and 15 s). -/
theorem claim_C7_reentry_emits_within_cooldown :
    ((reentry_run reentry_failing_trace {}).filterMap id).map
        TradingSignalE.timestamp = [100, 110] ∧
    (reentry_run reentry_failing_trace {}).length = 12 ∧
    (110 : ℚ) - 100 < 30 := by
  norm_num [reentry_run, reentry_generate_signal, reentry_failing_trace,
    List.filterMap]

/-- C8 as stated is false on the code: in the tick over the registry
[faulting_engine, healthy_engine] the first engine's raised fault escapes the
for-loop, so the second engine — RUNNING, with a ready signal — is not polled
in that tick: the polled indices are [0] and no signal is forwarded. -/
theorem claim_C8_fault_counterexample :
    (main_loop_iteration [faulting_engine, healthy_engine]).polled = [0] ∧
    ¬ (1 ∈ (main_loop_iteration [faulting_engine, healthy_engine]).polled) ∧
    healthy_engine.status = EngineStatus.running ∧
    (main_loop_iteration [faulting_engine, healthy_engine]).forwarded = [] := by
  refine ⟨rfl, ?_, rfl, rfl⟩
  simp [main_loop_iteration, tick_engine_loop, faulting_engine, healthy_engine]

/-- Every index collected by `running_indices` from a segment starting at
offset `i` is below `i` plus the segment length. -/
theorem running_indices_bound (l : List TickEngine) :
    ∀ (i j : ℕ), j ∈ running_indices l i → j < i + l.length := by
  induction l with
  | nil => intro i j h; simp [running_indices] at h
  | cons e rest ih =>
    intro i j h
    simp only [running_indices] at h
    by_cases he : e.status = EngineStatus.running
    · rw [if_pos he] at h
      rcases List.mem_cons.mp h with h1 | h2
      · subst h1; simp
      · have := ih (i + 1) j h2
        simp only [List.length_cons]
        omega
    · rw [if_neg he] at h
      have := ih (i + 1) j h
      simp only [List.length_cons]
      omega

/-- Crossing a fault-free segment of the registry: the tick loop polls
exactly the RUNNING engines of the segment and then behaves as the loop on
the rest, and the escaped fault is whatever the rest produces. -/
theorem tick_engine_loop_fault_free_segment (l rest : List TickEngine) :
    ∀ i : ℕ, (∀ e ∈ l, e.status = EngineStatus.running → ∃ v, e.gen = Except.ok v) →
    (tick_engine_loop (l ++ rest) i).1 =
      running_indices l i ++ (tick_engine_loop rest (i + l.length)).1 ∧
    (tick_engine_loop (l ++ rest) i).2.2 =
      (tick_engine_loop rest (i + l.length)).2.2 := by
  induction l with
  | nil => intro i _; simp [running_indices]
  | cons e tl ih =>
    intro i hok
    have hok2 : ∀ x ∈ tl, x.status = EngineStatus.running → ∃ v, x.gen = Except.ok v :=
      fun x hx => hok x (List.mem_cons_of_mem e hx)
    have harith : i + (e :: tl).length = (i + 1) + tl.length := by
      simp only [List.length_cons]; omega
    obtain ⟨st, g⟩ := e
    cases st with
    | running =>
      obtain ⟨v, hv⟩ := hok ⟨EngineStatus.running, g⟩ (List.mem_cons_self _ _) rfl
      simp only at hv
      subst hv
      obtain ⟨ih1, ih2⟩ := ih (i + 1) hok2
      rw [harith]
      exact ⟨by simp [List.cons_append, tick_engine_loop, running_indices, ih1],
        by simp [List.cons_append, tick_engine_loop, ih2]⟩
    | stopped =>
      obtain ⟨ih1, ih2⟩ := ih (i + 1) hok2
      rw [harith]
      exact ⟨by simp [List.cons_append, tick_engine_loop, running_indices, ih1],
        by simp [List.cons_append, tick_engine_loop, ih2]⟩
    | error =>
      obtain ⟨ih1, ih2⟩ := ih (i + 1) hok2
      rw [harith]
      exact ⟨by simp [List.cons_append, tick_engine_loop, running_indices, ih1],
        by simp [List.cons_append, tick_engine_loop, ih2]⟩
    | maintenance =>
      obtain ⟨ih1, ih2⟩ := ih (i + 1) hok2
      rw [harith]
      exact ⟨by simp [List.cons_append, tick_engine_loop, running_indices, ih1],
        by simp [List.cons_append, tick_engine_loop, ih2]⟩

/-- C8 amended: when an engine's `generate_signal` raises during a tick, the
engines before it in registry order were already polled (those that are
RUNNING), the faulting engine itself is the last one polled, no engine after
it is polled in that tick, and the fault is caught at the loop level: the
iteration records it, sleeps 5 seconds and the main loop continues. -/
theorem claim_C8_fault_aborts_rest_of_tick (pre post : List TickEngine) (msg : String)
    (hok : ∀ e ∈ pre, e.status = EngineStatus.running → ∃ v, e.gen = Except.ok v) :
    (main_loop_iteration
        (pre ++ ⟨EngineStatus.running, Except.error msg⟩ :: post)).polled =
      running_indices pre 0 ++ [pre.length] ∧
    (∀ j ∈ (main_loop_iteration
        (pre ++ ⟨EngineStatus.running, Except.error msg⟩ :: post)).polled,
      j ≤ pre.length) ∧
    (main_loop_iteration
        (pre ++ ⟨EngineStatus.running, Except.error msg⟩ :: post)).caught = some msg ∧
    (main_loop_iteration
        (pre ++ ⟨EngineStatus.running, Except.error msg⟩ :: post)).sleep_seconds = 5 ∧
    (main_loop_iteration
        (pre ++ ⟨EngineStatus.running, Except.error msg⟩ :: post)).continues = true := by
  obtain ⟨h1, h2⟩ := tick_engine_loop_fault_free_segment pre
    (⟨EngineStatus.running, Except.error msg⟩ :: post) 0 hok
  have hf : tick_engine_loop
      (⟨EngineStatus.running, Except.error msg⟩ :: post) (0 + pre.length) =
      ([pre.length], [], some msg) := by
    simp [tick_engine_loop]
  rw [hf] at h1 h2
  have hpolled : (tick_engine_loop
      (pre ++ ⟨EngineStatus.running, Except.error msg⟩ :: post) 0).1 =
      running_indices pre 0 ++ [pre.length] := h1
  have hcaught : (tick_engine_loop
      (pre ++ ⟨EngineStatus.running, Except.error msg⟩ :: post) 0).2.2 =
      some msg := h2
  refine ⟨?_, ?_, ?_, ?_, ?_⟩ <;>
    simp only [main_loop_iteration, hcaught, hpolled]
  intro j hj
  rcases List.mem_append.mp hj with hj1 | hj2
  · have := running_indices_bound pre 0 j hj1
    omega
  · simp only [List.mem_singleton] at hj2
    omega

/-- Closed instance of the amended C8: with a healthy RUNNING engine first
and a faulting engine second, the fault is caught, the iteration sleeps 5
seconds and the loop continues. -/
theorem claim_C8_fault_aborts_rest_of_tick_witness :
    (main_loop_iteration [healthy_engine, faulting_engine]).caught = some "boom" ∧
    (main_loop_iteration [healthy_engine, faulting_engine]).sleep_seconds = 5 ∧
    (main_loop_iteration [healthy_engine, faulting_engine]).continues = true := by
  have h := claim_C8_fault_aborts_rest_of_tick [healthy_engine] [] "boom"
    (by
      intro e he hr
      rw [List.mem_singleton] at he
      subst he
      exact ⟨some healthy_signal, rfl⟩)
  exact ⟨h.2.2.1, h.2.2.2.1, h.2.2.2.2⟩

/-- C9: when all four gathered search strategies fail, the selection step
aborts the cycle with no candidate, the optimizer state — applied parameters,
current score and history — is unchanged, and the loop retries after the
1800-second backoff of the except clause. -/
theorem claim_C9_all_strategies_fail_keeps_state (riskAdj : ParamSet → ℚ)
    (now : ℚ) (results : List (Except String ParamSet)) (s : OptimizerState)
    (_hlen : results.length = 4)
    (hfail : ∀ r ∈ results, ∃ msg, r = Except.error msg) :
    start_optimization_cycle riskAdj now results s = (s, CycleOutcome.errored 1800) ∧
    (start_optimization_cycle riskAdj now results s).1.best_parameters =
      s.best_parameters ∧
    (start_optimization_cycle riskAdj now results s).1.current_score =
      s.current_score ∧
    (start_optimization_cycle riskAdj now results s).1.optimization_history =
      s.optimization_history := by
  have hnil : (results.filterMap fun r =>
      match r with
      | Except.ok p => some p
      | Except.error _ => none) = [] := by
    rw [List.filterMap_eq_nil_iff]
    intro a ha
    obtain ⟨msg, rfl⟩ := hfail a ha
    rfl
  have hsel : select_best_optimization_result riskAdj s.target results =
      Except.error "all optimization strategies failed" := by
    simp only [select_best_optimization_result, hnil]
  have h : start_optimization_cycle riskAdj now results s =
      (s, CycleOutcome.errored 1800) := by
    simp only [start_optimization_cycle, hsel]
  exact ⟨h, by rw [h], by rw [h], by rw [h]⟩

/-- Closed instance of C9: four failed strategies leave the fresh optimizer
state untouched and schedule the 1800-second retry. -/
theorem claim_C9_all_strategies_fail_keeps_state_witness :
    start_optimization_cycle (fun _ => 50) 0
      [Except.error "a", Except.error "b", Except.error "c", Except.error "d"]
      {} = ({}, CycleOutcome.errored 1800) :=
  (claim_C9_all_strategies_fail_keeps_state (fun _ => 50) 0
    [Except.error "a", Except.error "b", Except.error "c", Except.error "d"] {}
    rfl
    (by
      intro r hr
      simp only [List.mem_cons, List.not_mem_nil, or_false] at hr
      rcases hr with rfl | rfl | rfl | rfl
      · exact ⟨"a", rfl⟩
      · exact ⟨"b", rfl⟩
      · exact ⟨"c", rfl⟩
      · exact ⟨"d", rfl⟩)).1

/-- C10: every candidate built by `sample_parameters` has allocations summing
to exactly 1 because `buyback_allocation` is derived as
`1 - (treasury_allocation + burn_allocation)`; with treasury drawn from
[0.60, 0.80] and burn from [0.15, 0.30] the derived value ranges over
[-0.10, 0.25], and at the extreme draws it falls below the declared lower
bound 0.05 of `buyback_allocation` — indeed it is negative. -/
theorem claim_C10_derived_buyback_allocation (t : TrialDraws)
    (ht : trial_draws_in_space {} t) :
    (sample_parameters t).buyback_allocation =
      some (1 - (t.treasury_allocation + t.burn_allocation)) ∧
    t.treasury_allocation + t.burn_allocation +
      (1 - (t.treasury_allocation + t.burn_allocation)) = 1 ∧
    -(1/10) ≤ 1 - (t.treasury_allocation + t.burn_allocation) ∧
    1 - (t.treasury_allocation + t.burn_allocation) ≤ 25/100 ∧
    (sample_parameters extreme_trial).buyback_allocation = some (-(1/10)) ∧
    trial_draws_in_space {} extreme_trial ∧
    inRangeB ({} : ParameterSpace).buyback_allocation
      (sample_parameters extreme_trial).buyback_allocation = false ∧
    (-(1/10) : ℚ) < 5/100 ∧ (-(1/10) : ℚ) < 0 := by
  obtain ⟨-, -, -, -, -, -, -, hta, hba, -⟩ := ht
  have h1 : (60/100 : ℚ) ≤ t.treasury_allocation := hta.1
  have h2 : t.treasury_allocation ≤ 80/100 := hta.2
  have h3 : (15/100 : ℚ) ≤ t.burn_allocation := hba.1
  have h4 : t.burn_allocation ≤ 30/100 := hba.2
  refine ⟨rfl, by ring, by linarith, by linarith, ?_, ?_, ?_, by norm_num,
    by norm_num⟩
  · norm_num [sample_parameters, extreme_trial]
  · norm_num [trial_draws_in_space, extreme_trial]
  · norm_num [sample_parameters, extreme_trial, inRangeB]

/-- Closed instance of C10 at the extreme trial: the derived buyback
allocation is exactly -0.10. -/
theorem claim_C10_derived_buyback_allocation_witness :
    (sample_parameters extreme_trial).buyback_allocation = some (-(1/10)) :=
  (claim_C10_derived_buyback_allocation extreme_trial
    (by norm_num [trial_draws_in_space, extreme_trial])).2.2.2.2.1

end HydraBot
